import Mathlib

/-!
Shallow embedding of the RMG-MPN netplay server core, translated from the
repository source (Go lobby and game server, plus the Qt UDP relay in
server.cpp), together with theorems checking the natural-language
specification's claims against this embedding.

Conventions: Go `uint32` values are `Nat` taken modulo `2^32` where the code
can wrap; Go maps are association lists; socket handles are abstracted to
`Nat` identifiers; wall-clock times are abstract integers (milliseconds).
-/

namespace MPN

/-! ## Accept codes and protocol constants (src/unnamed/part_001, const block) -/

def Accepted : Nat := 0
def BadPassword : Nat := 1
def MismatchVersion : Nat := 2
def RoomFull : Nat := 3
def DuplicateName : Nat := 4
def RoomDeleted : Nat := 5
def BadName : Nat := 6
def BadEmulator : Nat := 7
def BadAuth : Nat := 8
def Other : Nat := 9

def NetplayAPIVersion : String := "MPN-4"

def DisconnectTimeoutS : Nat := 30

/-- Modulus for Go `uint32` arithmetic. -/
def U32 : Nat := 2 ^ 32

/-- Largest value of a Go `uint32` (math.MaxUint32). -/
def maxUint32 : Nat := 4294967295

/-! ## Association list helpers, standing in for Go maps -/

def alookup {κ α : Type} [DecidableEq κ] (k : κ) : List (κ × α) → Option α
  | [] => none
  | (k', v) :: rest => if k' = k then some v else alookup k rest

def ainsert {κ α : Type} [DecidableEq κ] (k : κ) (v : α) : List (κ × α) → List (κ × α)
  | [] => [(k, v)]
  | (k', v') :: rest => if k' = k then (k, v) :: rest else (k', v') :: ainsert k v rest

def aerase {κ α : Type} [DecidableEq κ] (k : κ) : List (κ × α) → List (κ × α)
  | [] => []
  | (k', v') :: rest => if k' = k then aerase k rest else (k', v') :: aerase k rest

/-! ## Frame-counter arithmetic (src/unnamed/part_001, uintLarger) -/

/-- Translation of `uintLarger(v, w uint32) bool { return (w - v) > (math.MaxUint32 / 2) }`.
Go uint32 subtraction `w - v` is `(w + 2^32 - v) % 2^32` for `v, w < 2^32`. -/
def uintLarger (v w : Nat) : Bool :=
  (w + U32 - v) % U32 > maxUint32 / 2

/-- Modelled from the spec: the relay's `LeadCount` update rule is not under
src/ (only the `uintLarger` predicate is); spec section 4.6 says `LeadCount`
is "updated only when a newly observed counter is newer than the current
lead", newer being the wraparound comparison `uintLarger count lead`. -/
def updateLead (lead count : Nat) : Nat :=
  if uintLarger count lead then count else lead

/-! ## Lobby data model (src/unnamed/part_001 and src/internal/gameServer/server.go) -/

/-- Translation of `gameserver.Client`: a seated lobby player. The websocket handle is
abstracted to a `Nat` identifier (`socket`). -/
structure Client where
  ip : String := ""
  number : Nat := 0
  socket : Nat := 0
deriving Repr, DecidableEq

/-- The lobby-relevant fields of `gameserver.GameServer` (a room). `players`
models the Go map `Players map[string]Client` as an association list. -/
structure Room where
  gameName : String := ""
  password : String := ""
  clientSha : String := ""
  md5 : String := ""
  emulator : String := ""
  features : List (String × String) := []
  playerName : String := ""
  port : Nat := 0
  running : Bool := false
  startTime : Int := 0
  players : List (String × Client) := []
deriving Repr, DecidableEq

/-- The lobby-relevant fields of `lobbyserver.SocketMessage`. Absent JSON
fields decode as zero values, matching the `:=` defaults. -/
structure SocketMessage where
  features : List (String × String) := []
  gameName : String := ""
  protectedFlag : Bool := false
  password : String := ""
  message : String := ""
  clientSha : String := ""
  emulator : String := ""
  playerName : String := ""
  roomName : String := ""
  md5 : String := ""
  authTime : String := ""
  type : String := ""
  auth : String := ""
  playerNames : List String := []
  accept : Nat := 0
  netplayVersion : String := ""
  port : Nat := 0
deriving Repr, DecidableEq

/-- The room registry `LobbyServer.GameServers map[string]*GameServer`,
modelled as an association list keyed by room name. -/
structure LobbyState where
  gameServers : List (String × Room) := []
deriving Repr, DecidableEq

/-- Translation of `LobbyServer.findGameServer`: the first room in the
registry whose port matches. -/
def findGameServer (st : LobbyState) (port : Nat) : Option (String × Room) :=
  st.gameServers.find? (fun nr => nr.2.port = port)

/-! ## Auth verifier (src/unnamed/part_001, LobbyServer.validateAuth) -/

/-- Digit-string accumulator used by `parseInt64`. Returns `none` if any
character is not an ASCII digit. -/
def digitsToNat : List Char → Option Nat
  | [] => some 0
  | c :: rest =>
    if c.isDigit then
      (digitsToNat rest).map (fun n => (c.toNat - 48) * 10 ^ rest.length + n)
    else none

/-- Translation of Go `strconv.ParseInt(s, 10, 64)`: optional sign, one or
more ASCII digits, value within the int64 range; anything else errors. -/
def parseInt64 (s : String) : Option Int :=
  let cs := s.data
  match cs with
  | [] => none
  | c :: rest =>
    let signed : Bool × List Char :=
      if c = '-' then (true, rest) else if c = '+' then (false, rest) else (false, cs)
    if signed.2 = [] then none
    else
      match digitsToNat signed.2 with
      | none => none
      | some n =>
        let v : Int := if signed.1 then -(n : Int) else (n : Int)
        if v < -(2 ^ 63) ∨ v > 2 ^ 63 - 1 then none else some v

/-- The ambient inputs of `validateAuth` that the Go code reads from the
process environment and the wall clock:  `enableAuth` is the CLI flag,
`nowMs` the server UTC clock in Unix milliseconds, `env` the process
environment, and `shaHex` the lowercase-hex SHA-256 function (abstracted:
both the code model and the spec-side characterisation use the same
function, so its internals never matter to the claims). -/
structure AuthEnv where
  enableAuth : Bool
  nowMs : Int
  env : String → String
  shaHex : String → String

/-- Fifteen minutes in milliseconds, the `maxAllowableDifference` of
`validateAuth` (`15 * time.Minute`). -/
def maxAllowableDifferenceMs : Int := 15 * 60 * 1000

/-- Translation of `LobbyServer.validateAuth`, working in milliseconds.
The Go code computes the now-minus-received difference as a nanosecond
`Duration` and takes `math.Abs` of its `float64` image; near the 15-minute
boundary those values are exactly representable, so the integer absolute
value below coincides with the code's comparison. -/
def validateAuth (a : AuthEnv) (msg : SocketMessage) : Bool :=
  if !a.enableAuth then true
  else
    match parseInt64 msg.authTime with
    | none => false
    | some t =>
      if (a.nowMs - t).natAbs > maxAllowableDifferenceMs.toNat then false
      else
        let authCode := a.env (msg.emulator.toUpper ++ "_AUTH")
        if authCode = "" then false
        else msg.auth = a.shaHex (msg.authTime ++ authCode)

/-! ## Lobby request handlers (src/unnamed/part_001, wsHandler) -/

/-- Translation of the `TypeRequestCreateRoom` case of `wsHandler`.
`allocPort` stands for the value returned by `g.CreateNetworkServers`
(0 means the network listeners could not be created); `ip` and `sock` are
the connection's remote host and socket handle.  Returns the reply sent to
the requester and the updated registry. -/
def createRoomHandler (st : LobbyState) (msg : SocketMessage) (a : AuthEnv)
    (allocPort : Nat) (ip : String) (sock : Nat) : SocketMessage × LobbyState :=
  let reply : SocketMessage := { type := "reply_create_room" }
  if (alookup msg.roomName st.gameServers).isSome then
    ({ reply with accept := DuplicateName,
                  message := "Room with this name already exists" }, st)
  else if msg.netplayVersion ≠ NetplayAPIVersion then
    ({ reply with accept := MismatchVersion,
                  message := "Client and server not at same API version. Please update your emulator" }, st)
  else if msg.roomName = "" then
    ({ reply with accept := BadName, message := "Room name cannot be empty" }, st)
  else if msg.playerName = "" then
    ({ reply with accept := BadName, message := "Player name cannot be empty" }, st)
  else if msg.emulator = "" then
    ({ reply with accept := BadEmulator, message := "Emulator name cannot be empty" }, st)
  else if !validateAuth a msg then
    ({ reply with accept := BadAuth, message := "Bad authentication code" }, st)
  else if allocPort = 0 then
    ({ reply with port := allocPort, accept := Other, message := "Failed to create room" }, st)
  else
    let g : Room :=
      { password := msg.password
        gameName := msg.gameName
        md5 := msg.md5
        clientSha := msg.clientSha
        emulator := msg.emulator
        features := msg.features
        playerName := msg.playerName
        port := allocPort
        players := [(msg.playerName, { ip := ip, number := 0, socket := sock })] }
    ({ reply with
        port := allocPort
        accept := Accepted
        roomName := msg.roomName
        gameName := g.gameName
        playerName := msg.playerName
        features := msg.features },
     { st with gameServers := ainsert msg.roomName g st.gameServers })

/-- Inner loop of the seat-numbering search: whether any current player
holds seat `n` (`goodNumber = false` in the Go code). -/
def seatTaken (players : List (String × Client)) (n : Nat) : Bool :=
  players.any (fun p => p.2.number == n)

/-- Translation of the seat-numbering loop of the `TypeRequestJoinRoom`
case, unrolled over `number = 0, 1, 2, 3`: the first number no current
player holds, or 4 when every one of them is taken. -/
def findSeatNumber (players : List (String × Client)) : Nat :=
  if !seatTaken players 0 then 0
  else if !seatTaken players 1 then 1
  else if !seatTaken players 2 then 2
  else if !seatTaken players 3 then 3
  else 4

/-- Translation of the `TypeRequestJoinRoom` case of `wsHandler` (assuming
the per-connection `authenticated` flag is set; otherwise the message is
dropped with no reply).  Returns the reply and the updated registry. -/
def joinRoomHandler (st : LobbyState) (msg : SocketMessage) (ip : String) (sock : Nat) :
    SocketMessage × LobbyState :=
  let reply : SocketMessage := { type := "reply_join_room" }
  match findGameServer st msg.port with
  | none =>
    ({ reply with accept := RoomDeleted, message := "room has been deleted" }, st)
  | some (roomName, g) =>
    let duplicateName := g.players.any (fun p => msg.playerName = p.1)
    if g.password ≠ "" ∧ g.password ≠ msg.password then
      ({ reply with accept := BadPassword, message := "Incorrect password" }, st)
    else if g.clientSha ≠ msg.clientSha then
      ({ reply with accept := MismatchVersion, message := "Client versions do not match" }, st)
    else if g.md5 ≠ msg.md5 then
      ({ reply with accept := MismatchVersion, message := "ROM does not match room ROM" }, st)
    else if g.players.length ≥ 4 then
      ({ reply with accept := RoomFull, message := "Room is full" }, st)
    else if msg.playerName = "" then
      ({ reply with accept := BadName, message := "Player name cannot be empty" }, st)
    else if duplicateName then
      ({ reply with accept := DuplicateName, message := "Player name already in use" }, st)
    else
      let number := findSeatNumber g.players
      let g' := { g with
        players := ainsert msg.playerName { ip := ip, socket := sock, number := number } g.players }
      ({ reply with
          accept := Accepted
          roomName := roomName
          gameName := g.gameName
          playerName := msg.playerName
          features := g.features
          port := g.port },
       { st with gameServers := ainsert roomName g' st.gameServers })

/-- Result of the `TypeRequestBeginGame` case: the updated registry, the
list of `(socket, message)` sends performed, and whether
`watchGameServer` (which starts the relay supervisors `ManageBuffer` and
`ManagePlayers`) was spawned. -/
structure BeginGameResult where
  state : LobbyState
  sends : List (Nat × SocketMessage)
  supervisorsStarted : Bool
deriving Repr, DecidableEq

/-- Translation of the `TypeRequestBeginGame` case of `wsHandler` (assuming
the connection is authenticated). `now` is the wall-clock time recorded as
`StartTime`. A room that is already running, and a port with no room, are
logged and dropped: no state change, no sends. -/
def beginGameHandler (st : LobbyState) (msg : SocketMessage) (now : Int) : BeginGameResult :=
  match findGameServer st msg.port with
  | none => ⟨st, [], false⟩
  | some (roomName, g) =>
    if g.running then ⟨st, [], false⟩
    else
      let g' := { g with running := true, startTime := now }
      let reply : SocketMessage := { type := "reply_begin_game", port := g.port }
      ⟨{ st with gameServers := ainsert roomName g' st.gameServers },
       g.players.map (fun p => (p.2.socket, reply)),
       true⟩

/-- The per-room reply built by the `TypeRequestGetRooms` loop body for a
registry entry `(name, room)`. -/
def getRoomsReply (nr : String × Room) : SocketMessage :=
  { type := "reply_get_rooms"
    protectedFlag := nr.2.password ≠ ""
    accept := Accepted
    roomName := nr.1
    md5 := nr.2.md5
    port := nr.2.port
    gameName := nr.2.gameName
    features := nr.2.features
    playerName := nr.2.playerName }

/-- Translation of the `TypeRequestGetRooms` case of `wsHandler`: on a
validation failure a single error reply; otherwise one reply per room that
is not running and whose emulator tag equals the request's. -/
def getRoomsHandler (st : LobbyState) (msg : SocketMessage) (a : AuthEnv) :
    List SocketMessage :=
  let reply : SocketMessage := { type := "reply_get_rooms" }
  if msg.netplayVersion ≠ NetplayAPIVersion then
    [{ reply with accept := MismatchVersion,
                  message := "Client and server not at same API version. Please update your emulator" }]
  else if msg.emulator = "" then
    [{ reply with accept := BadEmulator, message := "Emulator name cannot be empty" }]
  else if !validateAuth a msg then
    [{ reply with accept := BadAuth, message := "Bad authentication code" }]
  else
    (st.gameServers.filter
      (fun nr => !nr.2.running && msg.emulator = nr.2.emulator)).map getRoomsReply

/-- Translation of the io.EOF branch of `wsHandler`: for every room that is
not running, every seat whose socket handle equals the closing connection
is deleted; a not-running room left with zero seats has its listeners
closed (`CloseServers`) and is deleted from the registry.  Rooms that are
running are not touched. -/
def eofCleanup (st : LobbyState) (sock : Nat) : LobbyState :=
  { st with gameServers := st.gameServers.filterMap (fun nr =>
      if nr.2.running then some nr
      else
        let players' := nr.2.players.filter (fun p => p.2.socket ≠ sock)
        if players'.length = 0 then none
        else some (nr.1, { nr.2 with players := players' })) }

/-- Translation of `LobbyServer.handlePlayerDrop` (the forcible-close
path): walk the rooms; at the FIRST seat whose socket matches, delete that
seat and stop; if that room is left empty, release its port and delete the
room (without closing its listeners and regardless of `Running`). -/
def handlePlayerDrop (st : LobbyState) (sock : Nat) : LobbyState :=
  match st.gameServers.find? (fun nr => nr.2.players.any (fun p => p.2.socket = sock)) with
  | none => st
  | some (roomName, g) =>
    match g.players.find? (fun p => p.2.socket = sock) with
    | none => st
    | some (playerName, _) =>
      let players' := aerase playerName g.players
      if players'.length = 0 then
        { st with gameServers := aerase roomName st.gameServers }
      else
        { st with gameServers := ainsert roomName { g with players := players' } st.gameServers }

/-! ## Game server state (src/internal/gameServer/server.go, src/unnamed/part_001 types) -/

/-- Translation of `gameserver.Registration`. -/
structure Registration where
  regID : Nat := 0
  plugin : Nat := 0
  raw : Nat := 0
deriving Repr, DecidableEq

/-- Translation of `gameserver.GameData`: maps keyed by `uint32` frame counters become
association lists; UDP return addresses become strings. -/
structure GameData where
  syncValues : List (Nat × List Nat) := []
  playerAddresses : List (Option String) := [none, none, none, none]
  bufferSize : List Nat := [0, 0, 0, 0]
  bufferHealth : List Int := [0, 0, 0, 0]
  inputs : List (List (Nat × Nat)) := [[], [], [], []]
  plugin : List (List (Nat × Nat)) := [[], [], [], []]
  pendingInput : List Nat := [0, 0, 0, 0]
  countLag : List Nat := [0, 0, 0, 0]
  pendingPlugin : List Nat := [0, 0, 0, 0]
  playerAlive : List Bool := [false, false, false, false]
  leadCount : Nat := 0
  status : Nat := 0
deriving Repr, DecidableEq

/-- The fields of `gameserver.GameServer` that the `ManagePlayers` sweep and
`ChangeBuffer` touch. `closed` records that `CloseServers` ran (both
listeners closed). -/
structure GameServerState where
  registrations : List (Nat × Registration) := []
  gameData : GameData := {}
  buffer : Nat := 0
  running : Bool := true
  closed : Bool := false
deriving Repr, DecidableEq

/-- One loop-body step of the `ManagePlayers` sweep at slot `i`:
`withStatus` is true for the first variant of `GameServer.ManagePlayers`
(src/internal/gameServer/server.go lines 88-122), which sets
`Status |= 1 << (i+1)` for a dead registered slot; the second and third
variants (lines 241-273 and 391-423) delete the registration without
touching `Status`.  In every variant `PlayerAlive[i]` is cleared at the end
of the body, and `playersActive` accumulates whether some registered slot
was alive. -/
def sweepSlot (withStatus : Bool) (acc : GameServerState × Bool) (i : Nat) :
    GameServerState × Bool :=
  let (g, playersActive) := acc
  let step :=
    match alookup i g.registrations with
    | none => (g, playersActive)
    | some _ =>
      if g.gameData.playerAlive.getD i false then (g, true)
      else
        let gd := g.gameData
        let gd := if withStatus then { gd with status := gd.status ||| (1 <<< (i + 1)) } else gd
        ({ g with gameData := gd, registrations := aerase i g.registrations }, playersActive)
  let (g', active') := step
  ({ g' with gameData := { g'.gameData with playerAlive := g'.gameData.playerAlive.set i false } },
   active')

/-- One full iteration of the `ManagePlayers` loop (one sweep, run every
`DisconnectTimeoutS` seconds): slots 0..3 are swept, then if no registered
slot was alive the room is closed (`CloseServers`, `Running = false`). -/
def managePlayersSweep (withStatus : Bool) (g : GameServerState) : GameServerState :=
  let (g', playersActive) := [0, 1, 2, 3].foldl (sweepSlot withStatus) (g, false)
  if playersActive then g' else { g' with closed := true, running := false }

/-- Translation of the first variant of `GameServer.ChangeBuffer`
(src/internal/gameServer/server.go lines 124-131): sets the room's base
buffer, and for each index of `BufferSize` sets `BufferSize[i] = 0` and
`BufferHealth[i] = 0 + uint32(buffer)`. -/
def changeBufferA (g : GameServerState) (buffer : Nat) : GameServerState :=
  let weightedBuffer := buffer % U32
  let gd := (List.range g.gameData.bufferSize.length).foldl
    (fun gd i => { gd with
        bufferSize := gd.bufferSize.set i 0,
        bufferHealth := gd.bufferHealth.set i (weightedBuffer : Int) })
    g.gameData
  { g with buffer := buffer, gameData := gd }

/-- Translation of the second and third variants of
`GameServer.ChangeBuffer` (src/internal/gameServer/server.go lines 275-281
and 425-431): sets the room's base buffer and `BufferSize[i] =
uint32(buffer)` for each slot, leaving `BufferHealth` alone. -/
def changeBufferB (g : GameServerState) (buffer : Nat) : GameServerState :=
  let weightedBuffer := buffer % U32
  let gd := (List.range g.gameData.bufferSize.length).foldl
    (fun gd i => { gd with bufferSize := gd.bufferSize.set i weightedBuffer })
    g.gameData
  { g with buffer := buffer, gameData := gd }

/-! ## UDP input relay (src/server.cpp) -/

/-- Per-player relay state of the Qt `Server` class: `inputs` is
`QHash<uint32_t, QPair<uint32_t, uint8_t>>` (frame counter to input word
and plugin byte), `buttons` the queued `QList` of pairs appended by
`KeyInfoClient` datagrams. -/
structure SlotState where
  inputs : List (Nat × (Nat × Nat)) := []
  buttons : List (Nat × Nat) := []
deriving Repr, DecidableEq

/-- Relay state for all player numbers (QHash semantics: a slot never
touched is the empty `SlotState`). -/
structure RelayState where
  slots : List (Nat × SlotState) := []
deriving Repr, DecidableEq

def getSlot (st : RelayState) (i : Nat) : SlotState :=
  (alookup i st.slots).getD {}

def setSlot (st : RelayState) (i : Nat) (s : SlotState) : RelayState :=
  { slots := ainsert i s st.slots }

/-- Go/C++ `uint32` decrement `count - 1` with wraparound. -/
def u32dec (count : Nat) : Nat := (count + U32 - 1) % U32

/-- Translation of `Server::checkIfExists`: called when slot data for
`count` is needed; if the exact counter is absent, pop the oldest queued
button pair, else repeat the previous counter's value, else store zero
("controller not present"). -/
def checkIfExists (s : SlotState) (count : Nat) : SlotState :=
  if (alookup count s.inputs).isSome then s
  else
    match s.buttons with
    | b :: rest => { inputs := ainsert count b s.inputs, buttons := rest }
    | [] =>
      match alookup (u32dec count) s.inputs with
      | some v => { s with inputs := ainsert count v s.inputs }
      | none => { s with inputs := ainsert count (0, 0) s.inputs }

/-- An entry of a `KeyInfoServer` datagram: frame counter, input word,
plugin byte, exactly the 9 bytes written per loop iteration of
`Server::sendInput`. -/
structure KeyEntry where
  count : Nat
  keys : Nat
  plugin : Nat
deriving Repr, DecidableEq

/-- The loop of `Server::sendInput` (`buffer[2] = 4` iterations): an entry
is emitted for the current counter when `spectator == 0` or the exact
counter is present in `inputs`; the counter is incremented with `uint32`
wraparound between iterations. -/
def sendInputLoop : Nat → SlotState → Nat → Nat → SlotState × List KeyEntry
  | 0, s, _, _ => (s, [])
  | n + 1, s, count, spectator =>
    let step :=
      if spectator = 0 ∨ (alookup count s.inputs).isSome then
        let s2 := checkIfExists s count
        let v := (alookup count s2.inputs).getD (0, 0)
        (s2, [⟨count, v.1, v.2⟩])
      else (s, ([] : List KeyEntry))
    let next := sendInputLoop n step.1 ((count + 1) % U32) spectator
    (next.1, step.2 ++ next.2)

/-- Translation of `Server::sendInput` for player `slot`: runs the 4-entry
loop and sends one `KeyInfoServer` datagram iff at least one entry was
produced (`curr > 3`), returning `none` when nothing is sent. -/
def sendInput (st : RelayState) (slot count spectator : Nat) :
    RelayState × Option (List KeyEntry) :=
  let s := getSlot st slot
  let r := sendInputLoop 4 s count spectator
  (setSlot st slot r.1, if r.2 = [] then none else some r.2)

/-- Translation of the `case 0` (KeyInfoClient) branch of
`Server::readPendingDatagrams`: the parsed frame counter is read but
unused; the `(keys, plugin)` pair is appended to the slot's `buttons`
queue. -/
def keyInfoClient (st : RelayState) (slot _count keys plugin : Nat) : RelayState :=
  let s := getSlot st slot
  setSlot st slot { s with buttons := s.buttons ++ [(keys, plugin)] }

/-- Translation of the `case 2` (PlayerInputRequest) branch of
`Server::readPendingDatagrams`: reply with `sendInput` at the requested
counter. -/
def playerInputRequest (st : RelayState) (slot count spectator : Nat) :
    RelayState × Option (List KeyEntry) :=
  sendInput st slot count spectator

/-! ## Helper lemmas about the association-list operations -/

theorem alookup_ainsert {κ α : Type} [DecidableEq κ] (k : κ) (v : α) (l : List (κ × α)) :
    alookup k (ainsert k v l) = some v := by
  induction l with
  | nil => simp [ainsert, alookup]
  | cons h t ih =>
    by_cases hk : h.1 = k
    · simp [ainsert, alookup, hk]
    · simp [ainsert, alookup, hk, ih]

theorem alookup_ainsert_ne {κ α : Type} [DecidableEq κ] (k k' : κ) (v : α)
    (l : List (κ × α)) (h : k ≠ k') :
    alookup k' (ainsert k v l) = alookup k' l := by
  induction l with
  | nil => simp [ainsert, alookup, h]
  | cons hd t ih =>
    by_cases hk : hd.1 = k
    · simp [ainsert, alookup, hk, h]
    · simp only [ainsert, if_neg hk]
      by_cases hk' : hd.1 = k'
      · simp [alookup, hk']
      · simp [alookup, hk', ih]

/-- The seat-numbering loop returns the least free seat: it is below 4
whenever fewer than 4 players are seated, no current player holds it, and
every smaller number is held by some player. -/
theorem findSeatNumber_spec (players : List (String × Client)) (h : players.length < 4) :
    findSeatNumber players < 4 ∧
    (∀ p ∈ players, p.2.number ≠ findSeatNumber players) ∧
    (∀ m < findSeatNumber players, ∃ p ∈ players, p.2.number = m) := by
  have hmem : ∀ n : Nat, seatTaken players n = true → ∃ p ∈ players, p.2.number = n := by
    intro n hn
    simpa [seatTaken] using hn
  have hnot : ∀ n : Nat, seatTaken players n = false → ∀ p ∈ players, p.2.number ≠ n := by
    intro n hn
    simpa [seatTaken] using hn
  have hfull : seatTaken players 0 = true → seatTaken players 1 = true →
      seatTaken players 2 = true → seatTaken players 3 = true → False := by
    intro t0 t1 t2 t3
    have hsub : [0, 1, 2, 3] ⊆ players.map (fun p => p.2.number) := by
      intro x hx
      have hx' : x = 0 ∨ x = 1 ∨ x = 2 ∨ x = 3 := by simpa using hx
      rcases hx' with rfl | rfl | rfl | rfl
      · rcases hmem 0 t0 with ⟨p, hp, hnum⟩
        exact List.mem_map.mpr ⟨p, hp, hnum⟩
      · rcases hmem 1 t1 with ⟨p, hp, hnum⟩
        exact List.mem_map.mpr ⟨p, hp, hnum⟩
      · rcases hmem 2 t2 with ⟨p, hp, hnum⟩
        exact List.mem_map.mpr ⟨p, hp, hnum⟩
      · rcases hmem 3 t3 with ⟨p, hp, hnum⟩
        exact List.mem_map.mpr ⟨p, hp, hnum⟩
    have hlen := (List.subperm_of_subset (by decide) hsub).length_le
    simp only [List.length_map, List.length_cons, List.length_nil] at hlen
    omega
  cases hb0 : seatTaken players 0 with
  | false =>
    refine ⟨by simp [findSeatNumber, hb0], ?_, ?_⟩
    · simpa [findSeatNumber, hb0] using hnot 0 hb0
    · intro m hm
      simp [findSeatNumber, hb0] at hm
  | true =>
  cases hb1 : seatTaken players 1 with
  | false =>
    refine ⟨by simp [findSeatNumber, hb0, hb1], ?_, ?_⟩
    · simpa [findSeatNumber, hb0, hb1] using hnot 1 hb1
    · intro m hm
      simp only [findSeatNumber, hb0, hb1] at hm
      norm_num at hm
      subst hm
      exact hmem 0 hb0
  | true =>
  cases hb2 : seatTaken players 2 with
  | false =>
    refine ⟨by simp [findSeatNumber, hb0, hb1, hb2], ?_, ?_⟩
    · simpa [findSeatNumber, hb0, hb1, hb2] using hnot 2 hb2
    · intro m hm
      simp only [findSeatNumber, hb0, hb1, hb2] at hm
      norm_num at hm
      interval_cases m
      · exact hmem 0 hb0
      · exact hmem 1 hb1
  | true =>
  cases hb3 : seatTaken players 3 with
  | false =>
    refine ⟨by simp [findSeatNumber, hb0, hb1, hb2, hb3], ?_, ?_⟩
    · simpa [findSeatNumber, hb0, hb1, hb2, hb3] using hnot 3 hb3
    · intro m hm
      simp only [findSeatNumber, hb0, hb1, hb2, hb3] at hm
      norm_num at hm
      interval_cases m
      · exact hmem 0 hb0
      · exact hmem 1 hb1
      · exact hmem 2 hb2
  | true => exact (hfull hb0 hb1 hb2 hb3).elim

/-! ## Claim C2: join_room ordered validation -/

/-- C2: the reply_join_room accept code is decided by the first failing
check in the fixed order room-not-found, password, client build, ROM
digest, room full, empty player name, duplicate player name; on success the
joiner gets the lowest seat number in 0..3 not used by any current player;
on every failing check the registry (hence every room's player set) is
unchanged. -/
theorem c2_join_room_order (st : LobbyState) (msg : SocketMessage) (ip : String)
    (sock : Nat) (roomName : String) (g : Room) :
    (findGameServer st msg.port = none →
      (joinRoomHandler st msg ip sock).1.accept = RoomDeleted ∧
      (joinRoomHandler st msg ip sock).2 = st) ∧
    (findGameServer st msg.port = some (roomName, g) →
      g.password ≠ "" ∧ g.password ≠ msg.password →
      (joinRoomHandler st msg ip sock).1.accept = BadPassword ∧
      (joinRoomHandler st msg ip sock).2 = st) ∧
    (findGameServer st msg.port = some (roomName, g) →
      ¬(g.password ≠ "" ∧ g.password ≠ msg.password) → g.clientSha ≠ msg.clientSha →
      (joinRoomHandler st msg ip sock).1.accept = MismatchVersion ∧
      (joinRoomHandler st msg ip sock).2 = st) ∧
    (findGameServer st msg.port = some (roomName, g) →
      ¬(g.password ≠ "" ∧ g.password ≠ msg.password) → g.clientSha = msg.clientSha →
      g.md5 ≠ msg.md5 →
      (joinRoomHandler st msg ip sock).1.accept = MismatchVersion ∧
      (joinRoomHandler st msg ip sock).2 = st) ∧
    (findGameServer st msg.port = some (roomName, g) →
      ¬(g.password ≠ "" ∧ g.password ≠ msg.password) → g.clientSha = msg.clientSha →
      g.md5 = msg.md5 → g.players.length ≥ 4 →
      (joinRoomHandler st msg ip sock).1.accept = RoomFull ∧
      (joinRoomHandler st msg ip sock).2 = st) ∧
    (findGameServer st msg.port = some (roomName, g) →
      ¬(g.password ≠ "" ∧ g.password ≠ msg.password) → g.clientSha = msg.clientSha →
      g.md5 = msg.md5 → g.players.length < 4 → msg.playerName = "" →
      (joinRoomHandler st msg ip sock).1.accept = BadName ∧
      (joinRoomHandler st msg ip sock).2 = st) ∧
    (findGameServer st msg.port = some (roomName, g) →
      ¬(g.password ≠ "" ∧ g.password ≠ msg.password) → g.clientSha = msg.clientSha →
      g.md5 = msg.md5 → g.players.length < 4 → msg.playerName ≠ "" →
      g.players.any (fun p => msg.playerName = p.1) = true →
      (joinRoomHandler st msg ip sock).1.accept = DuplicateName ∧
      (joinRoomHandler st msg ip sock).2 = st) ∧
    (findGameServer st msg.port = some (roomName, g) →
      ¬(g.password ≠ "" ∧ g.password ≠ msg.password) → g.clientSha = msg.clientSha →
      g.md5 = msg.md5 → g.players.length < 4 → msg.playerName ≠ "" →
      g.players.any (fun p => msg.playerName = p.1) = false →
      (joinRoomHandler st msg ip sock).1.accept = Accepted ∧
      alookup roomName (joinRoomHandler st msg ip sock).2.gameServers =
        some { g with players :=
          (ainsert msg.playerName
            ({ ip := ip, number := findSeatNumber g.players, socket := sock } : Client)
            g.players) } ∧
      findSeatNumber g.players < 4 ∧
      (∀ p ∈ g.players, p.2.number ≠ findSeatNumber g.players) ∧
      (∀ m < findSeatNumber g.players, ∃ p ∈ g.players, p.2.number = m)) := by
  refine ⟨?_, ?_, ?_, ?_, ?_, ?_, ?_, ?_⟩
  · intro h1
    simp [joinRoomHandler, h1]
  · intro h1 h2
    simp [joinRoomHandler, h1, h2]
  · intro h1 h2 h3
    simp only [joinRoomHandler, h1]
    simp [h2, h3]
  · intro h1 h2 h3 h4
    simp only [joinRoomHandler, h1]
    simp [h2, h3, h4]
  · intro h1 h2 h3 h4 h5
    simp only [joinRoomHandler, h1]
    simp [h2, h3, h4, h5]
  · intro h1 h2 h3 h4 h5 h6
    simp only [joinRoomHandler, h1]
    simp [h2, h3, h4, h5, h6, Nat.not_le.mpr h5]
  · intro h1 h2 h3 h4 h5 h6 h7
    simp only [joinRoomHandler, h1]
    simp [h2, h3, h4, h5, h6, h7, Nat.not_le.mpr h5]
  · intro h1 h2 h3 h4 h5 h6 h7
    obtain ⟨hlt, hfree, hmin⟩ := findSeatNumber_spec g.players h5
    refine ⟨?_, ?_, hlt, hfree, hmin⟩ <;>
    · simp only [joinRoomHandler, h1]
      simp [h2, h3, h4, h6, h7, Nat.not_le.mpr h5, alookup_ainsert]

/-- Witness for C2: a room "alpha" on port 45001 with creator pA at seat 0;
joiner pB with matching credentials is accepted. -/
theorem c2_join_room_order_witness :
    (joinRoomHandler
      { gameServers := [("alpha",
          { gameName := "MarioParty", clientSha := "1111", md5 := "deadbeef",
            emulator := "m64p", port := 45001,
            players := [("pA", { ip := "10.0.0.1", number := 0, socket := 7 })] })] }
      { port := 45001, playerName := "pB", clientSha := "1111", md5 := "deadbeef" }
      "10.0.0.2" 8).1.accept = Accepted :=
  (((c2_join_room_order
      { gameServers := [("alpha",
          { gameName := "MarioParty", clientSha := "1111", md5 := "deadbeef",
            emulator := "m64p", port := 45001,
            players := [("pA", { ip := "10.0.0.1", number := 0, socket := 7 })] })] }
      { port := 45001, playerName := "pB", clientSha := "1111", md5 := "deadbeef" }
      "10.0.0.2" 8 "alpha"
      { gameName := "MarioParty", clientSha := "1111", md5 := "deadbeef",
        emulator := "m64p", port := 45001,
        players := [("pA", { ip := "10.0.0.1", number := 0, socket := 7 })] }
      ).2.2.2.2.2.2.2) (by decide) (by decide) (by decide) (by decide) (by decide)
      (by decide) (by decide)).1

/-! ## Claim C5: begin_game idempotent guard and broadcast -/

/-- C5: begin_game on a room that is already running changes no state and
sends nothing; on a room that is not running it sets `Running`, records
`StartTime`, starts the relay supervisors, and sends exactly one
reply_begin_game carrying the room's port per seated player (for each
socket, as many sends as seats holding that socket). -/
theorem c5_begin_game (st : LobbyState) (msg : SocketMessage) (now : Int)
    (roomName : String) (g : Room) :
    (findGameServer st msg.port = some (roomName, g) → g.running = true →
      beginGameHandler st msg now = ⟨st, [], false⟩) ∧
    (findGameServer st msg.port = some (roomName, g) → g.running = false →
      (beginGameHandler st msg now).supervisorsStarted = true ∧
      alookup roomName (beginGameHandler st msg now).state.gameServers =
        some { g with running := true, startTime := now } ∧
      (beginGameHandler st msg now).sends =
        g.players.map (fun p => (p.2.socket,
          ({ type := "reply_begin_game", port := g.port } : SocketMessage))) ∧
      ∀ x : Nat, (beginGameHandler st msg now).sends.countP (fun s => s.1 = x) =
        g.players.countP (fun p => p.2.socket = x)) := by
  constructor
  · intro h hrun
    simp [beginGameHandler, h, hrun]
  · intro h hrun
    refine ⟨?_, ?_, ?_, ?_⟩ <;> simp [beginGameHandler, h, hrun, alookup_ainsert]
    intro x
    rfl

/-- Witness for C5: a non-running two-player room on port 45001; both seats
get the broadcast. -/
theorem c5_begin_game_witness :
    (beginGameHandler
      { gameServers := [("alpha",
          { port := 45001, running := false,
            players := [("pA", { ip := "10.0.0.1", number := 0, socket := 7 }),
                        ("pB", { ip := "10.0.0.2", number := 1, socket := 8 })] })] }
      { port := 45001 } 99).supervisorsStarted = true :=
  ((c5_begin_game
      { gameServers := [("alpha",
          { port := 45001, running := false,
            players := [("pA", { ip := "10.0.0.1", number := 0, socket := 7 }),
                        ("pB", { ip := "10.0.0.2", number := 1, socket := 8 })] })] }
      { port := 45001 } 99 "alpha"
      { port := 45001, running := false,
        players := [("pA", { ip := "10.0.0.1", number := 0, socket := 7 }),
                    ("pB", { ip := "10.0.0.2", number := 1, socket := 8 })] }).2
    (by decide) rfl).1

/-! ## Claim C10: get_rooms enumeration -/

/-- C10: a validated request_get_rooms emits exactly one reply per room
that is not running and whose emulator tag equals the request's; each such
reply carries accept = Accepted, the room name, game name, MD5, port,
features, creator name, and a protected flag that is true iff the room
password is non-empty; running rooms and rooms of other emulators are never
listed. -/
theorem c10_get_rooms (st : LobbyState) (msg : SocketMessage) (a : AuthEnv)
    (h1 : msg.netplayVersion = NetplayAPIVersion) (h2 : msg.emulator ≠ "")
    (h3 : validateAuth a msg = true) :
    getRoomsHandler st msg a =
      (st.gameServers.filter
        (fun nr => !nr.2.running && msg.emulator = nr.2.emulator)).map getRoomsReply ∧
    (∀ m ∈ getRoomsHandler st msg a, ∃ nr, nr ∈ st.gameServers ∧
      nr.2.running = false ∧ nr.2.emulator = msg.emulator ∧
      m.accept = Accepted ∧ m.roomName = nr.1 ∧ m.gameName = nr.2.gameName ∧
      m.md5 = nr.2.md5 ∧ m.port = nr.2.port ∧ m.features = nr.2.features ∧
      m.playerName = nr.2.playerName ∧ (m.protectedFlag = true ↔ nr.2.password ≠ "")) ∧
    (∀ nr ∈ st.gameServers, nr.2.running = false → nr.2.emulator = msg.emulator →
      getRoomsReply nr ∈ getRoomsHandler st msg a) := by
  have hout : getRoomsHandler st msg a =
      (st.gameServers.filter
        (fun nr => !nr.2.running && msg.emulator = nr.2.emulator)).map getRoomsReply := by
    simp [getRoomsHandler, h1, h2, h3]
  refine ⟨hout, ?_, ?_⟩
  · intro m hm
    rw [hout] at hm
    obtain ⟨nr, hnr, rfl⟩ := List.mem_map.mp hm
    obtain ⟨hmem, hcond⟩ := List.mem_filter.mp hnr
    simp only [Bool.and_eq_true, Bool.not_eq_true', decide_eq_true_eq] at hcond
    exact ⟨nr, hmem, hcond.1, hcond.2.symm, rfl, rfl, rfl, rfl, rfl, rfl, rfl, by
      simp [getRoomsReply]⟩
  · intro nr hnr hrun hemu
    rw [hout]
    exact List.mem_map_of_mem _ (List.mem_filter.mpr ⟨hnr, by simp [hrun, hemu]⟩)

/-- Witness for C10: one idle matching room, one running room, one room of
another emulator; exactly the idle matching room is listed. -/
theorem c10_get_rooms_witness :
    getRoomsHandler
      { gameServers := [
          ("alpha", { emulator := "m64p", port := 45001, gameName := "MarioParty" }),
          ("beta", { emulator := "m64p", port := 45002, running := true }),
          ("gamma", { emulator := "other", port := 45003 })] }
      { netplayVersion := "MPN-4", emulator := "m64p" }
      { enableAuth := false, nowMs := 0, env := fun _ => "", shaHex := fun s => s } =
    [getRoomsReply ("alpha",
        { emulator := "m64p", port := 45001, gameName := "MarioParty" })] :=
  (c10_get_rooms
      { gameServers := [
          ("alpha", { emulator := "m64p", port := 45001, gameName := "MarioParty" }),
          ("beta", { emulator := "m64p", port := 45002, running := true }),
          ("gamma", { emulator := "other", port := 45003 })] }
      { netplayVersion := "MPN-4", emulator := "m64p" }
      { enableAuth := false, nowMs := 0, env := fun _ => "", shaHex := fun s => s }
      rfl (by decide) (by simp [validateAuth])).1

/-! ## Claim C8: auth validation characterisation -/

/-- C8: with enable-auth set, validation accepts iff authTime parses as a
decimal integer within 15 minutes (either direction, in milliseconds) of
the server clock, the environment variable named by the upper-cased
emulator tag plus "_AUTH" is non-empty, and the auth field equals the
lowercase hex SHA-256 of the authTime string concatenated with that
secret; with enable-auth unset, validation always accepts. -/
theorem c8_validate_auth (a : AuthEnv) (msg : SocketMessage) :
    validateAuth a msg = true ↔
      (a.enableAuth = false ∨
        ∃ t : Int, parseInt64 msg.authTime = some t ∧
          (a.nowMs - t).natAbs ≤ 15 * 60 * 1000 ∧
          a.env (msg.emulator.toUpper ++ "_AUTH") ≠ "" ∧
          msg.auth = a.shaHex
            (msg.authTime ++ a.env (msg.emulator.toUpper ++ "_AUTH"))) := by
  have habs : maxAllowableDifferenceMs.toNat = 15 * 60 * 1000 := rfl
  unfold validateAuth
  cases ha : a.enableAuth with
  | false => simp [ha]
  | true =>
    simp only [ha, Bool.not_true, Bool.false_eq_true, if_false, Bool.true_eq_false,
      false_or]
    cases hp : parseInt64 msg.authTime with
    | none => simp
    | some t =>
      by_cases htime : (a.nowMs - t).natAbs > maxAllowableDifferenceMs.toNat
      · simp only [if_pos htime, Bool.false_eq_true, false_iff, not_exists]
        rintro t' ⟨ht', habs', _⟩
        rw [Option.some_inj] at ht'
        subst ht'
        omega
      · simp only [if_neg htime]
        by_cases henv : a.env (msg.emulator.toUpper ++ "_AUTH") = ""
        · simp [henv]
        · simp only [if_neg henv, decide_eq_true_eq]
          constructor
          · intro hsha
            exact ⟨t, rfl, by omega, henv, hsha⟩
          · rintro ⟨t', ht', _, _, hsha⟩
            rw [Option.some_inj] at ht'
            subst ht'
            exact hsha

/-- Witness for C8: with enable-auth unset, any message validates. -/
theorem c8_validate_auth_witness :
    validateAuth { enableAuth := false, nowMs := 0, env := fun _ => "",
                   shaHex := fun s => s } {} = true :=
  (c8_validate_auth
    { enableAuth := false, nowMs := 0, env := fun _ => "", shaHex := fun s => s }
    {}).mpr (Or.inl rfl)

/-! ## Supporting lemmas for the ManagePlayers sweep -/

theorem alookup_aerase {κ α : Type} [DecidableEq κ] (k : κ) (l : List (κ × α)) :
    alookup k (aerase k l) = none := by
  induction l with
  | nil => rfl
  | cons hd t ih =>
    by_cases hk : hd.1 = k
    · simp [aerase, hk, ih]
    · simp [aerase, alookup, hk, ih]

theorem alookup_aerase_ne {κ α : Type} [DecidableEq κ] (k k' : κ) (l : List (κ × α))
    (h : k ≠ k') : alookup k' (aerase k l) = alookup k' l := by
  induction l with
  | nil => rfl
  | cons hd t ih =>
    by_cases hk : hd.1 = k
    · have hne : hd.1 ≠ k' := by rw [hk]; exact h
      simp [aerase, alookup, hk, hne, ih, h]
    · by_cases hk' : hd.1 = k'
      · simp [aerase, alookup, hk, hk', Ne.symm h]
      · simp [aerase, alookup, hk, hk', ih]

theorem getD_set_self (l : List Bool) (i : Nat) : (l.set i false).getD i false = false := by
  induction l generalizing i with
  | nil => simp
  | cons hd tl ih =>
    cases i with
    | zero => simp
    | succ n => simpa using ih n

theorem getD_set_ne (l : List Bool) (i j : Nat) (v : Bool) (h : i ≠ j) :
    (l.set i v).getD j false = l.getD j false := by
  induction l generalizing i j with
  | nil => rfl
  | cons hd tl ih =>
    cases i with
    | zero =>
      cases j with
      | zero => exact absurd rfl h
      | succ m => simp
    | succ n =>
      cases j with
      | zero => simp
      | succ m => simpa using ih n m (by omega)

theorem any_congr {α : Type} (l : List α) (p q : α → Bool) (h : ∀ a ∈ l, p a = q a) :
    l.any p = l.any q := by
  induction l with
  | nil => rfl
  | cons hd tl ih =>
    simp only [List.any_cons, h hd (by simp), ih (fun a ha => h a (by simp [ha]))]

/-- Behaviour of one sweep-loop body at slot `i`: closed/running/buffer are
untouched, the alive flag at `i` is cleared, other registrations are
untouched, a dead registered slot loses its registration (and, in the
status-setting variant, gains status bit `i+1`), status bits only grow, and
the `playersActive` accumulator picks up a registered live slot. -/
theorem sweepSlot_spec (b : Bool) (g : GameServerState) (act : Bool) (i : Nat) :
    (sweepSlot b (g, act) i).1.closed = g.closed ∧
    (sweepSlot b (g, act) i).1.running = g.running ∧
    (sweepSlot b (g, act) i).1.gameData.playerAlive = g.gameData.playerAlive.set i false ∧
    (∀ j, j ≠ i → alookup j (sweepSlot b (g, act) i).1.registrations =
      alookup j g.registrations) ∧
    ((alookup i g.registrations).isSome = true →
      g.gameData.playerAlive.getD i false = false →
      alookup i (sweepSlot b (g, act) i).1.registrations = none) ∧
    (∀ n, g.gameData.status.testBit n = true →
      (sweepSlot b (g, act) i).1.gameData.status.testBit n = true) ∧
    (b = true → (alookup i g.registrations).isSome = true →
      g.gameData.playerAlive.getD i false = false →
      (sweepSlot b (g, act) i).1.gameData.status.testBit (i + 1) = true) ∧
    (b = false → (sweepSlot b (g, act) i).1.gameData.status = g.gameData.status) ∧
    (sweepSlot b (g, act) i).2 =
      (act || ((alookup i g.registrations).isSome &&
               g.gameData.playerAlive.getD i false)) := by
  cases hreg : alookup i g.registrations with
  | none =>
    simp [sweepSlot, hreg]
  | some reg =>
    cases halive : g.gameData.playerAlive[i]?.getD false with
    | true => simp [sweepSlot, hreg, List.getD_eq_getElem?_getD, halive]
    | false =>
      cases b with
      | false =>
        have hred : sweepSlot false (g, act) i =
            ({ g with registrations := aerase i g.registrations,
                      gameData := ({ g.gameData with
                        playerAlive := (g.gameData.playerAlive.set i false) }) }, act) := by
          simp [sweepSlot, hreg, List.getD_eq_getElem?_getD, halive]
        rw [hred]
        refine ⟨rfl, rfl, rfl, fun j hj => alookup_aerase_ne i j _ (fun he => hj he.symm),
          fun _ _ => alookup_aerase i _, fun n h => h, fun hb => absurd hb (by simp),
          fun _ => rfl, by simp [hreg, List.getD_eq_getElem?_getD, halive]⟩
      | true =>
        have hred : sweepSlot true (g, act) i =
            ({ g with registrations := aerase i g.registrations,
                      gameData := ({ g.gameData with
                        status := (g.gameData.status ||| 1 <<< (i + 1)),
                        playerAlive := (g.gameData.playerAlive.set i false) }) }, act) := by
          simp [sweepSlot, hreg, List.getD_eq_getElem?_getD, halive]
        rw [hred]
        refine ⟨rfl, rfl, rfl, fun j hj => alookup_aerase_ne i j _ (fun he => hj he.symm),
          fun _ _ => alookup_aerase i _, ?_, ?_, fun hb => absurd hb (by simp),
          by simp [hreg, List.getD_eq_getElem?_getD, halive]⟩
        · intro n h
          simp [Nat.testBit_or, h]
        · intro _ _ _
          simp [Nat.testBit_or, Nat.testBit_shiftLeft]

/-- Invariants of the sweep loop over a duplicate-free list of slot
indices, by induction along the loop. -/
theorem sweepFold_spec (b : Bool) (l : List Nat) :
    ∀ (g : GameServerState) (act : Bool), l.Nodup →
    (l.foldl (sweepSlot b) (g, act)).1.closed = g.closed ∧
    (l.foldl (sweepSlot b) (g, act)).1.running = g.running ∧
    (∀ j, j ∉ l → alookup j (l.foldl (sweepSlot b) (g, act)).1.registrations =
      alookup j g.registrations) ∧
    (∀ j, j ∉ l → (l.foldl (sweepSlot b) (g, act)).1.gameData.playerAlive.getD j false =
      g.gameData.playerAlive.getD j false) ∧
    (∀ i ∈ l, (l.foldl (sweepSlot b) (g, act)).1.gameData.playerAlive.getD i false = false) ∧
    (∀ n, g.gameData.status.testBit n = true →
      (l.foldl (sweepSlot b) (g, act)).1.gameData.status.testBit n = true) ∧
    (∀ i ∈ l, (alookup i g.registrations).isSome = true →
      g.gameData.playerAlive.getD i false = false →
      alookup i (l.foldl (sweepSlot b) (g, act)).1.registrations = none ∧
      (b = true →
        (l.foldl (sweepSlot b) (g, act)).1.gameData.status.testBit (i + 1) = true)) ∧
    (b = false →
      (l.foldl (sweepSlot b) (g, act)).1.gameData.status = g.gameData.status) ∧
    (l.foldl (sweepSlot b) (g, act)).2 =
      (act || l.any (fun i => (alookup i g.registrations).isSome &&
                               g.gameData.playerAlive.getD i false)) := by
  induction l with
  | nil =>
    intro g act _
    simp
  | cons hd tl ih =>
    intro g act hnd
    rw [List.nodup_cons] at hnd
    obtain ⟨hhd, htl⟩ := hnd
    obtain ⟨c1, c2, c3, c4, c5, c6, c7, c8, c9⟩ := sweepSlot_spec b g act hd
    simp only [List.foldl_cons]
    obtain ⟨i1, i2, i3, i4, i5, i6, i7, i8, i9⟩ :=
      ih (sweepSlot b (g, act) hd).1 (sweepSlot b (g, act) hd).2 htl
    rw [Prod.mk.eta] at i1 i2 i3 i4 i5 i6 i7 i8 i9
    refine ⟨i1.trans c1, i2.trans c2, ?_, ?_, ?_, ?_, ?_, ?_, ?_⟩
    · intro j hj
      have hj' : j ∉ tl := fun h => hj (List.mem_cons_of_mem _ h)
      have hjh : j ≠ hd := fun h => hj (h ▸ List.mem_cons_self _ _)
      rw [i3 j hj', c4 j hjh]
    · intro j hj
      have hj' : j ∉ tl := fun h => hj (List.mem_cons_of_mem _ h)
      have hjh : j ≠ hd := fun h => hj (h ▸ List.mem_cons_self _ _)
      rw [i4 j hj', c3, getD_set_ne _ _ _ _ (fun h => hjh h.symm)]
    · intro i hi
      rcases List.mem_cons.mp hi with rfl | hi'
      · rw [i4 i hhd, c3, getD_set_self]
      · exact i5 i hi'
    · exact fun n h => i6 n (c6 n h)
    · intro i hi hreg halive
      rcases List.mem_cons.mp hi with rfl | hi'
      · refine ⟨?_, ?_⟩
        · rw [i3 i hhd, c5 hreg halive]
        · intro hb
          exact i6 _ (c7 hb hreg halive)
      · have hne : i ≠ hd := fun h => hhd (h ▸ hi')
        have hr' : (alookup i (sweepSlot b (g, act) hd).1.registrations).isSome = true := by
          rw [c4 i hne]
          exact hreg
        have ha' : (sweepSlot b (g, act) hd).1.gameData.playerAlive.getD i false = false := by
          rw [c3, getD_set_ne _ _ _ _ (fun h => hne h.symm)]
          exact halive
        exact i7 i hi' hr' ha'
    · intro hb
      rw [i8 hb, c8 hb]
    · rw [i9, c9]
      have hcong : tl.any (fun i =>
            (alookup i (sweepSlot b (g, act) hd).1.registrations).isSome &&
            (sweepSlot b (g, act) hd).1.gameData.playerAlive.getD i false) =
          tl.any (fun i => (alookup i g.registrations).isSome &&
            g.gameData.playerAlive.getD i false) := by
        apply any_congr
        intro x hx
        have hne : x ≠ hd := fun h => hhd (h ▸ hx)
        rw [c4 x hne, c3, getD_set_ne _ _ _ _ (fun h => hne h.symm)]
      rw [hcong, List.any_cons, Bool.or_assoc]

/-- Reduction of `managePlayersSweep` through its pair destructuring. -/
theorem managePlayersSweep_eq (b : Bool) (g : GameServerState) :
    managePlayersSweep b g =
      (if ([0, 1, 2, 3].foldl (sweepSlot b) (g, false)).2 = true
       then ([0, 1, 2, 3].foldl (sweepSlot b) (g, false)).1
       else { ([0, 1, 2, 3].foldl (sweepSlot b) (g, false)).1 with
              closed := true, running := false }) := by
  unfold managePlayersSweep
  rcases h : [0, 1, 2, 3].foldl (sweepSlot b) (g, false) with ⟨g1, act⟩
  cases act <;> simp

/-! ## Claim C6: ManagePlayers sweep -/

/-- C6 (amended): a ManagePlayers sweep iteration deletes the Registration
of every registered slot in 0..3 whose PlayerAlive flag is false — setting
Status bit i+1 in the first source variant (`withStatus = true`) and
leaving Status untouched in the second and third variants — then clears
all four PlayerAlive flags; the room is closed exactly when no registered
slot was alive; the sweep interval constant DisconnectTimeoutS is 30. -/
theorem c6_manage_players_sweep (b : Bool) (g : GameServerState) :
    DisconnectTimeoutS = 30 ∧
    (∀ i, i < 4 → (alookup i g.registrations).isSome = true →
      g.gameData.playerAlive.getD i false = false →
      alookup i (managePlayersSweep b g).registrations = none ∧
      (b = true → (managePlayersSweep b g).gameData.status.testBit (i + 1) = true)) ∧
    (∀ i, i < 4 → (managePlayersSweep b g).gameData.playerAlive.getD i false = false) ∧
    (b = false → (managePlayersSweep b g).gameData.status = g.gameData.status) ∧
    ((∀ i, i < 4 → (alookup i g.registrations).isSome = true →
        g.gameData.playerAlive.getD i false = false) →
      (managePlayersSweep b g).closed = true ∧ (managePlayersSweep b g).running = false) ∧
    ((∃ i, i < 4 ∧ (alookup i g.registrations).isSome = true ∧
        g.gameData.playerAlive.getD i false = true) →
      (managePlayersSweep b g).closed = g.closed ∧
      (managePlayersSweep b g).running = g.running) := by
  have hm4 : ∀ i : Nat, i < 4 → i ∈ [0, 1, 2, 3] := by
    intro i hi
    interval_cases i <;> simp
  have hm4r : ∀ i : Nat, i ∈ [0, 1, 2, 3] → i < 4 := by
    intro i hi
    simp only [List.mem_cons, List.not_mem_nil, or_false] at hi
    omega
  obtain ⟨f1, f2, f3, f4, f5, f6, f7, f8, f9⟩ :=
    sweepFold_spec b [0, 1, 2, 3] g false (by decide)
  have hregs : (managePlayersSweep b g).registrations =
      ([0, 1, 2, 3].foldl (sweepSlot b) (g, false)).1.registrations := by
    rw [managePlayersSweep_eq]
    split <;> rfl
  have hgd : (managePlayersSweep b g).gameData =
      ([0, 1, 2, 3].foldl (sweepSlot b) (g, false)).1.gameData := by
    rw [managePlayersSweep_eq]
    split <;> rfl
  refine ⟨rfl, ?_, ?_, ?_, ?_, ?_⟩
  · intro i hi hreg halive
    obtain ⟨hdel, hbit⟩ := f7 i (hm4 i hi) hreg halive
    exact ⟨by rw [hregs]; exact hdel, fun hb => by rw [hgd]; exact hbit hb⟩
  · intro i hi
    rw [hgd]
    exact f5 i (hm4 i hi)
  · intro hb
    rw [hgd]
    exact f8 hb
  · intro hdead
    have hact : ([0, 1, 2, 3].foldl (sweepSlot b) (g, false)).2 = false := by
      rw [f9, Bool.false_or]
      apply List.any_eq_false.mpr
      intro x hx
      cases hreg : (alookup x g.registrations).isSome with
      | false => simp [hreg]
      | true =>
        have hd := hdead x (hm4r x hx) hreg
        simp only [List.getD_eq_getElem?_getD] at hd
        simp [hreg, hd]
    rw [managePlayersSweep_eq, hact]
    exact ⟨rfl, rfl⟩
  · rintro ⟨i, hi, hreg, halive⟩
    have hact : ([0, 1, 2, 3].foldl (sweepSlot b) (g, false)).2 = true := by
      rw [f9, Bool.false_or]
      refine List.any_eq_true.mpr ⟨i, hm4 i hi, ?_⟩
      have ha := halive
      simp only [List.getD_eq_getElem?_getD] at ha
      simp [hreg, ha]
    rw [managePlayersSweep_eq, hact]
    exact ⟨f1, f2⟩

/-- Witness for C6 at a concrete state: slot 0 registered and dead under
the status-setting variant; the registration is deleted and Status bit 1
is set. -/
theorem c6_manage_players_sweep_witness :
    alookup 0 (managePlayersSweep true
      { registrations := [(0, {})] }).registrations = none ∧
    (managePlayersSweep true
      { registrations := [(0, {})] }).gameData.status.testBit 1 = true :=
  let h := (c6_manage_players_sweep true { registrations := [(0, {})] }).2.1
    0 (by decide) (by decide) (by decide)
  ⟨h.1, h.2 rfl⟩

/-- C6 counterexample: in the second and third ManagePlayers variants
(`withStatus = false`) a registered slot 0 that is not alive loses its
Registration but Status bit 1 is NOT set, contradicting the claim that
every sweep variant sets `Status |= 1 << (i+1)` for dead slots. -/
theorem c6_counterexample :
    alookup 0 (managePlayersSweep false
      { registrations := [(0, {})] }).registrations = none ∧
    (managePlayersSweep false
      { registrations := [(0, {})] }).gameData.status.testBit 1 = false := by
  decide

/-! ## Claim C7: buffer_change -/

theorem getD_set_eq {α : Type} (l : List α) (i : Nat) (v d : α) (h : i < l.length) :
    (l.set i v).getD i d = v := by
  induction l generalizing i with
  | nil => simp at h
  | cons hd tl ih =>
    cases i with
    | zero => simp
    | succ n => simpa using ih n (by simpa using h)

theorem getD_set_ne2 {α : Type} (l : List α) (i j : Nat) (v d : α) (h : i ≠ j) :
    (l.set i v).getD j d = l.getD j d := by
  induction l generalizing i j with
  | nil => rfl
  | cons hd tl ih =>
    cases i with
    | zero =>
      cases j with
      | zero => exact absurd rfl h
      | succ m => simp
    | succ n =>
      cases j with
      | zero => simp
      | succ m => simpa using ih n m (by omega)

/-- C7 (amended, first variant of `ChangeBuffer`): sets the room's base
Buffer to n and, for every slot i in 0..3, sets BufferSize[i] to 0 and
BufferHealth[i] to n, leaving the remaining GameData fields and the rest
of the room state unchanged. (`n < 2^31` keeps the Go `uint32`/`int32`
conversions the identity.) -/
theorem c7_change_buffer (g : GameServerState) (n : Nat)
    (hbs : g.gameData.bufferSize.length = 4)
    (hbh : g.gameData.bufferHealth.length = 4) (hn : n < 2 ^ 31) :
    (changeBufferA g n).buffer = n ∧
    (∀ i, i < 4 → (changeBufferA g n).gameData.bufferSize.getD i 99 = 0) ∧
    (∀ i, i < 4 → (changeBufferA g n).gameData.bufferHealth.getD i 99 = (n : Int)) ∧
    (changeBufferA g n).gameData.syncValues = g.gameData.syncValues ∧
    (changeBufferA g n).gameData.playerAddresses = g.gameData.playerAddresses ∧
    (changeBufferA g n).gameData.inputs = g.gameData.inputs ∧
    (changeBufferA g n).gameData.plugin = g.gameData.plugin ∧
    (changeBufferA g n).gameData.pendingInput = g.gameData.pendingInput ∧
    (changeBufferA g n).gameData.countLag = g.gameData.countLag ∧
    (changeBufferA g n).gameData.pendingPlugin = g.gameData.pendingPlugin ∧
    (changeBufferA g n).gameData.playerAlive = g.gameData.playerAlive ∧
    (changeBufferA g n).gameData.leadCount = g.gameData.leadCount ∧
    (changeBufferA g n).gameData.status = g.gameData.status ∧
    (changeBufferA g n).registrations = g.registrations ∧
    (changeBufferA g n).running = g.running ∧
    (changeBufferA g n).closed = g.closed := by
  have hmod : n % U32 = n := Nat.mod_eq_of_lt (by
    have : (2 : Nat) ^ 31 < 2 ^ 32 := by norm_num
    simp only [U32]
    omega)
  simp only [changeBufferA, hbs, hmod]
  norm_num [List.range_succ]
  refine ⟨?_, ?_⟩
  · intro i hi
    interval_cases i <;>
      simp [getD_set_eq, getD_set_ne2, List.length_set, hbs]
  · intro i hi
    interval_cases i <;>
      simp [getD_set_eq, getD_set_ne2, List.length_set, hbh]

/-- Witness for C7: buffer 5 on a default room; slot 0 ends with
BufferSize 0 and BufferHealth 5. -/
theorem c7_change_buffer_witness :
    (changeBufferA {} 5).buffer = 5 ∧
    (changeBufferA {} 5).gameData.bufferSize.getD 0 99 = 0 ∧
    (changeBufferA {} 5).gameData.bufferHealth.getD 0 99 = (5 : Int) :=
  let h := c7_change_buffer {} 5 rfl rfl (by norm_num)
  ⟨h.1, h.2.1 0 (by norm_num), h.2.2.1 0 (by norm_num)⟩

/-- C7 counterexample: the second and third variants of `ChangeBuffer` set
BufferSize[i] to n (not 0) and leave BufferHealth unchanged, contradicting
the claim for n = 5: slot 0 ends with BufferSize 5 and BufferHealth 0. -/
theorem c7_counterexample :
    (changeBufferB {} 5).gameData.bufferSize.getD 0 99 = 5 ∧
    (changeBufferB {} 5).gameData.bufferHealth.getD 0 99 = (0 : Int) := by
  decide

/-! ## Claim C9: lobby disconnect cleanup -/

theorem eq_of_mem_nodup_keys {κ α : Type} (l : List (κ × α))
    (h : (l.map Prod.fst).Nodup) (a b : κ × α) (ha : a ∈ l) (hb : b ∈ l)
    (hf : a.1 = b.1) : a = b := by
  induction l with
  | nil => cases ha
  | cons hd tl ih =>
    rw [List.map_cons, List.nodup_cons] at h
    rcases List.mem_cons.mp ha with rfl | ha'
    · rcases List.mem_cons.mp hb with rfl | hb'
      · rfl
      · exact absurd (hf ▸ List.mem_map_of_mem Prod.fst hb') h.1
    · rcases List.mem_cons.mp hb with rfl | hb'
      · exact absurd (hf ▸ List.mem_map_of_mem Prod.fst ha') h.1
      · exact ih h.2 ha' hb'

/-- C9 (amended): on an io.EOF lobby disconnect only rooms that are NOT
running are walked: their seats whose socket equals the closing connection
are removed; a not-running room whose seat list becomes empty is destroyed
(removed from the registry, its listeners closed); rooms that are running
are kept verbatim — their matching seats are NOT removed. -/
theorem c9_eof_cleanup (st : LobbyState) (sock : Nat)
    (hkeys : (st.gameServers.map Prod.fst).Nodup) :
    (∀ nr ∈ st.gameServers, nr.2.running = true →
      nr ∈ (eofCleanup st sock).gameServers) ∧
    (∀ nr ∈ st.gameServers, nr.2.running = false →
      (nr.2.players.filter (fun p => p.2.socket ≠ sock)).length ≠ 0 →
      (nr.1, { nr.2 with
        players := (nr.2.players.filter (fun p => p.2.socket ≠ sock)) }) ∈
        (eofCleanup st sock).gameServers) ∧
    (∀ nr ∈ st.gameServers, nr.2.running = false →
      (nr.2.players.filter (fun p => p.2.socket ≠ sock)).length = 0 →
      ∀ g', (nr.1, g') ∉ (eofCleanup st sock).gameServers) ∧
    (∀ nr ∈ (eofCleanup st sock).gameServers, nr.2.running = false →
      ∀ p ∈ nr.2.players, p.2.socket ≠ sock) := by
  refine ⟨?_, ?_, ?_, ?_⟩
  · intro nr hnr hrun
    refine List.mem_filterMap.mpr ⟨nr, hnr, ?_⟩
    simp [hrun]
  · intro nr hnr hrun hne
    refine List.mem_filterMap.mpr ⟨nr, hnr, ?_⟩
    simp only [hrun, Bool.false_eq_true, if_false, if_neg hne]
  · intro nr hnr hrun hzero g' hmem
    obtain ⟨nr0, hnr0, hf⟩ := List.mem_filterMap.mp hmem
    by_cases hrun0 : nr0.2.running = true
    · simp only [hrun0, if_true, Option.some_inj] at hf
      have : nr0 = nr :=
        eq_of_mem_nodup_keys _ hkeys nr0 nr hnr0 hnr (by rw [hf])
      rw [this] at hrun0
      rw [hrun] at hrun0
      exact absurd hrun0 (by simp)
    · simp only [if_neg hrun0] at hf
      split at hf
      · exact absurd hf (by simp)
      · next hlen =>
        rw [Option.some_inj] at hf
        injection hf with h1 h2
        have : nr0 = nr := eq_of_mem_nodup_keys _ hkeys nr0 nr hnr0 hnr h1
        rw [this] at hlen
        exact hlen hzero
  · intro nr hnr hrun p hp
    obtain ⟨nr0, hnr0, hf⟩ := List.mem_filterMap.mp hnr
    by_cases hrun0 : nr0.2.running = true
    · simp only [hrun0, if_true, Option.some_inj] at hf
      rw [← hf] at hrun
      rw [hrun] at hrun0
      exact absurd hrun0 (by simp)
    · simp only [if_neg hrun0] at hf
      split at hf
      · exact absurd hf (by simp)
      · rw [Option.some_inj] at hf
        have hpl : nr.2.players = nr0.2.players.filter (fun q => q.2.socket ≠ sock) := by
          rw [← hf]
        rw [hpl] at hp
        have := (List.mem_filter.mp hp).2
        simpa using this

/-- Witness for C9: one running room and one idle room, each with a seat on
socket 7; the idle room is destroyed, the running room survives intact. -/
theorem c9_eof_cleanup_witness :
    ("r", ({ running := true, port := 45001,
             players := [("pA", { ip := "10.0.0.1", number := 0, socket := 7 })] } : Room)) ∈
      (eofCleanup
        { gameServers := [
            ("r", { running := true, port := 45001,
                    players := [("pA", { ip := "10.0.0.1", number := 0, socket := 7 })] }),
            ("s", { running := false, port := 45002,
                    players := [("pB", { ip := "10.0.0.2", number := 0, socket := 7 })] })] }
        7).gameServers :=
  (c9_eof_cleanup
    { gameServers := [
        ("r", { running := true, port := 45001,
                players := [("pA", { ip := "10.0.0.1", number := 0, socket := 7 })] }),
        ("s", { running := false, port := 45002,
                players := [("pB", { ip := "10.0.0.2", number := 0, socket := 7 })] })] }
    7 (by decide)).1
    ("r", { running := true, port := 45001,
            players := [("pA", { ip := "10.0.0.1", number := 0, socket := 7 })] })
    (by decide) rfl

/-- C9 counterexample: a running room keeps the seat whose socket matches
the closing connection, contradicting the claim that the seat is removed
from every room. -/
theorem c9_counterexample :
    (eofCleanup
      { gameServers := [("r", { running := true, port := 45001,
                                players := [("pA", { ip := "10.0.0.1", number := 0, socket := 7 })] })] }
      7).gameServers.any
        (fun nr => nr.2.players.any (fun p => p.2.socket == 7)) = true := by
  decide

/-! ## Claim C3: UDP relay and the spectator flag -/

theorem getSlot_setSlot_self (st : RelayState) (i : Nat) (s : SlotState) :
    getSlot (setSlot st i s) i = s := by
  simp [getSlot, setSlot, alookup_ainsert]

theorem getSlot_setSlot_ne (st : RelayState) (i j : Nat) (s : SlotState) (h : i ≠ j) :
    getSlot (setSlot st i s) j = getSlot st j := by
  simp [getSlot, setSlot, alookup_ainsert_ne _ _ _ _ h]

/-- With a nonzero spectator flag the send loop never mutates the slot
state and only emits entries whose exact counter was already present in
`inputs`, with exactly the stored input word and plugin byte. -/
theorem sendInputLoop_spectator (n : Nat) (s : SlotState) :
    ∀ (count spectator : Nat), spectator ≠ 0 →
    (sendInputLoop n s count spectator).1 = s ∧
    ∀ e ∈ (sendInputLoop n s count spectator).2,
      alookup e.count s.inputs = some (e.keys, e.plugin) := by
  induction n with
  | zero =>
    intro count spectator _
    simp [sendInputLoop]
  | succ m ih =>
    intro count spectator hs
    cases hc : alookup count s.inputs with
    | none =>
      have hguard : ¬(spectator = 0 ∨ (alookup count s.inputs).isSome = true) := by
        simp [hs, hc]
      simp only [sendInputLoop, if_neg hguard]
      obtain ⟨ih1, ih2⟩ := ih ((count + 1) % U32) spectator hs
      exact ⟨ih1, by simpa using ih2⟩
    | some v =>
      have hguard : spectator = 0 ∨ (alookup count s.inputs).isSome = true := by
        simp [hc]
      have hchk : checkIfExists s count = s := by
        simp [checkIfExists, hc]
      simp only [sendInputLoop, if_pos hguard, hchk]
      obtain ⟨ih1, ih2⟩ := ih ((count + 1) % U32) spectator hs
      refine ⟨ih1, ?_⟩
      intro e he
      simp only [List.cons_append, List.nil_append, List.mem_cons] at he
      rcases he with rfl | he'
      · simp [hc]
      · exact ih2 e he'

/-- C3 (amended): after a KeyInfoClient for slot i at counter c with input
word k and plugin byte p (which only appends the pair to the slot's
`buttons` queue, leaving `inputs` untouched), a PlayerInputRequest for slot
i at counter c with spectator = 1 sends NO datagram; with spectator = 0 it
sends a single KeyInfoServer datagram whose first entry is exactly
(c, k, p); and with any nonzero spectator flag the server never synthesises
inputs — its state is unchanged and every emitted entry was already stored
in `inputs` verbatim. -/
theorem c3_relay (slot c k p : Nat) :
    (sendInput (keyInfoClient { slots := [] } slot c k p) slot c 1).2 = none ∧
    ((sendInput (keyInfoClient { slots := [] } slot c k p) slot c 0).2.isSome = true ∧
      ((sendInput (keyInfoClient { slots := [] } slot c k p) slot c 0).2.getD
        []).head? = some ⟨c, k, p⟩) ∧
    (∀ (st : RelayState) (slot2 count spectator : Nat), spectator ≠ 0 →
      (∀ j, getSlot (sendInput st slot2 count spectator).1 j = getSlot st j) ∧
      ∀ e ∈ (sendInput st slot2 count spectator).2.getD [],
        alookup e.count (getSlot st slot2).inputs = some (e.keys, e.plugin)) := by
  refine ⟨?_, ?_, ?_⟩
  · simp [sendInput, keyInfoClient, getSlot, setSlot, alookup, ainsert,
      sendInputLoop, checkIfExists]
  · constructor <;>
      simp [sendInput, keyInfoClient, getSlot, setSlot, alookup, ainsert,
        sendInputLoop, checkIfExists]
  · intro st slot2 count spectator hs
    obtain ⟨h1, h2⟩ := sendInputLoop_spectator 4 (getSlot st slot2) count spectator hs
    constructor
    · intro j
      by_cases hj : j = slot2
      · subst hj
        simp only [sendInput]
        rw [getSlot_setSlot_self, h1]
      · simp only [sendInput]
        rw [getSlot_setSlot_ne _ _ _ _ (fun he => hj he.symm)]
    · intro e he
      apply h2
      simp only [sendInput] at he
      by_cases hemp : (sendInputLoop 4 (getSlot st slot2) count spectator).2 = []
      · rw [hemp] at he
        simp at he
      · rw [if_neg hemp] at he
        simpa using he

/-- Witness for C3: concrete scenario with keys 0xAABBCCDD and plugin 2 at
counter 100, plus the never-synthesise clause applied at spectator 1. -/
theorem c3_relay_witness :
    (sendInput (keyInfoClient { slots := [] } 0 100 2864434397 2) 0 100 1).2 = none ∧
    (∀ j, getSlot (sendInput { slots := [] } 0 50 1).1 j = getSlot { slots := [] } j) :=
  ⟨(c3_relay 0 100 2864434397 2).1,
   ((c3_relay 0 100 2864434397 2).2.2 { slots := [] } 0 50 1 (by decide)).1⟩

/-- C3 counterexample: exactly the spec's round-trip scenario — a
KeyInfoClient for slot 0 at counter 100 with keys 0xAABBCCDD and plugin 2,
then a PlayerInputRequest for slot 0 at counter 100 with spectator = 1 —
produces no datagram at all (the pair sits in the `buttons` queue, never in
`inputs`), contradicting the claimed KeyInfoServer reply with first entry
(100, 0xAABBCCDD, 2). -/
theorem c3_counterexample :
    (playerInputRequest (keyInfoClient { slots := [] } 0 100 2864434397 2) 0 100 1).2
      = none := by
  decide

/-! ## Claim C4: wraparound frame-counter ordering -/

/-- C4: for 32-bit counters `v`, `w` the server's wraparound ordering
classifies `v` as older than `w` (that is, `uintLarger v w` is false) iff
`(w - v) mod 2^32 < 2^31`, and `uintLarger v w` holds iff
`(w - v) mod 2^32 >= 2^31`; counter 0 is newer than counter `2^32 - 1`, so
a lead of `2^32 - 1` followed by a `KeyInfoClient` at counter 0 sets
`LeadCount` to 0. -/
theorem c4_uintLarger_half_range (v w : Nat) (hv : v < U32) (hw : w < U32) :
    (uintLarger v w = true ↔ (w + U32 - v) % U32 ≥ 2 ^ 31) ∧
    (uintLarger v w = false ↔ (w + U32 - v) % U32 < 2 ^ 31) ∧
    uintLarger 0 maxUint32 = true ∧
    updateLead maxUint32 0 = 0 := by
  refine ⟨?_, ?_, by decide, by decide⟩ <;>
    simp only [uintLarger, decide_eq_true_eq, decide_eq_false_iff_not, not_lt,
      maxUint32, U32] <;> omega

/-- Witness for C4 at `v = 5`, `w = 7` (5 is older than 7). -/
theorem c4_uintLarger_half_range_witness :
    (uintLarger 5 7 = true ↔ (7 + U32 - 5) % U32 ≥ 2 ^ 31) ∧
    (uintLarger 5 7 = false ↔ (7 + U32 - 5) % U32 < 2 ^ 31) ∧
    uintLarger 0 maxUint32 = true ∧
    updateLead maxUint32 0 = 0 :=
  c4_uintLarger_half_range 5 7 (by decide) (by decide)

/-! ## Claim C1: create_room ordered validation -/

/-- C1: the reply_create_room accept code is decided by the first failing
check in the fixed order duplicate room name, netplay version, empty room
name, empty player name, empty emulator tag, auth, port allocation; when
every check passes the reply is Accepted and echoes the room name, game
name, creator name, feature bag and allocated port, and the creator is
installed at seat number 0. -/
theorem c1_create_room_order (st : LobbyState) (msg : SocketMessage) (a : AuthEnv)
    (allocPort : Nat) (ip : String) (sock : Nat) :
    ((alookup msg.roomName st.gameServers).isSome →
      (createRoomHandler st msg a allocPort ip sock).1.accept = DuplicateName) ∧
    (alookup msg.roomName st.gameServers = none →
      msg.netplayVersion ≠ NetplayAPIVersion →
      (createRoomHandler st msg a allocPort ip sock).1.accept = MismatchVersion) ∧
    (alookup msg.roomName st.gameServers = none →
      msg.netplayVersion = NetplayAPIVersion → msg.roomName = "" →
      (createRoomHandler st msg a allocPort ip sock).1.accept = BadName) ∧
    (alookup msg.roomName st.gameServers = none →
      msg.netplayVersion = NetplayAPIVersion → msg.roomName ≠ "" → msg.playerName = "" →
      (createRoomHandler st msg a allocPort ip sock).1.accept = BadName) ∧
    (alookup msg.roomName st.gameServers = none →
      msg.netplayVersion = NetplayAPIVersion → msg.roomName ≠ "" → msg.playerName ≠ "" →
      msg.emulator = "" →
      (createRoomHandler st msg a allocPort ip sock).1.accept = BadEmulator) ∧
    (alookup msg.roomName st.gameServers = none →
      msg.netplayVersion = NetplayAPIVersion → msg.roomName ≠ "" → msg.playerName ≠ "" →
      msg.emulator ≠ "" → validateAuth a msg = false →
      (createRoomHandler st msg a allocPort ip sock).1.accept = BadAuth) ∧
    (alookup msg.roomName st.gameServers = none →
      msg.netplayVersion = NetplayAPIVersion → msg.roomName ≠ "" → msg.playerName ≠ "" →
      msg.emulator ≠ "" → validateAuth a msg = true → allocPort = 0 →
      (createRoomHandler st msg a allocPort ip sock).1.accept = Other) ∧
    (alookup msg.roomName st.gameServers = none →
      msg.netplayVersion = NetplayAPIVersion → msg.roomName ≠ "" → msg.playerName ≠ "" →
      msg.emulator ≠ "" → validateAuth a msg = true → allocPort ≠ 0 →
      (createRoomHandler st msg a allocPort ip sock).1.accept = Accepted ∧
      (createRoomHandler st msg a allocPort ip sock).1.roomName = msg.roomName ∧
      (createRoomHandler st msg a allocPort ip sock).1.gameName = msg.gameName ∧
      (createRoomHandler st msg a allocPort ip sock).1.playerName = msg.playerName ∧
      (createRoomHandler st msg a allocPort ip sock).1.features = msg.features ∧
      (createRoomHandler st msg a allocPort ip sock).1.port = allocPort ∧
      ∃ g, alookup msg.roomName
              (createRoomHandler st msg a allocPort ip sock).2.gameServers = some g ∧
           alookup msg.playerName g.players =
              some { ip := ip, number := 0, socket := sock }) := by
  refine ⟨?_, ?_, ?_, ?_, ?_, ?_, ?_, ?_⟩ <;> intros <;>
    simp_all [createRoomHandler, alookup_ainsert, alookup]

/-- Witness for C1: a fresh registry, a well-formed create request, working
auth, and port 45001 allocated; the success clause applies. -/
theorem c1_create_room_order_witness :
    (createRoomHandler { gameServers := [] }
      { roomName := "alpha", playerName := "pA", emulator := "m64p",
        netplayVersion := "MPN-4", gameName := "MarioParty" }
      { enableAuth := false, nowMs := 0, env := fun _ => "", shaHex := fun s => s }
      45001 "10.0.0.1" 7).1.accept = Accepted :=
  ((c1_create_room_order { gameServers := [] }
      { roomName := "alpha", playerName := "pA", emulator := "m64p",
        netplayVersion := "MPN-4", gameName := "MarioParty" }
      { enableAuth := false, nowMs := 0, env := fun _ => "", shaHex := fun s => s }
      45001 "10.0.0.1" 7).2.2.2.2.2.2.2 (by simp [alookup]) rfl (by simp) (by simp)
      (by simp) (by simp [validateAuth]) (by simp)).1

end MPN
